import Mathlib

/-!
Verification of the ZFS Assistant core against its natural-language
specification.  The definitions below are a shallow embedding of the
Python sources under src/zfs-assistant/src: pure string/list logic is
translated directly, process execution is modelled by explicit outcome
parameters, and the privilege manager's mutable session becomes explicit
state passing.  Timestamps are modelled as integers (seconds); an
unparseable creation time is modelled as `none`.
-/

/-- Characters rejected outright by every validator
(common.py `_DISALLOWED_SHELL_CHARS`, the set " \t\r\n'\"`;$|&<>\\").
Non-printable and quote-like characters are written by code point:
9 = tab, 13 = CR, 10 = LF, 39 = single quote, 34 = double quote,
96 = backtick, 92 = backslash. -/
def disallowedShellChars : List Char :=
  [' ', Char.ofNat 9, Char.ofNat 13, Char.ofNat 10, Char.ofNat 39, Char.ofNat 34,
   Char.ofNat 96, ';', '$', '|', '&', '<', '>', Char.ofNat 92]

/-- One character of the allow-list class of common.py
`_SAFE_ZFS_TOKEN_RE = ^[A-Za-z0-9._:/+-]+$`. -/
def isSafeTokenChar (c : Char) : Bool :=
  c.isUpper || c.isLower || c.isDigit || [ '.', '_', ':', '/', '+', '-'].contains c

/-- Anchored match of `_SAFE_ZFS_TOKEN_RE` against a whole string:
non-empty and every character in the class. -/
def matchesSafeZfsTokenRe (s : String) : Bool :=
  if s = "" then false else s.toList.all isSafeTokenChar

/-- common.py `is_safe_zfs_token`: reject empty, reject any disallowed
shell character, then require the regex to match. -/
def is_safe_zfs_token (s : String) : Bool :=
  if s = "" then false
  else if s.toList.any (fun c => disallowedShellChars.contains c) then false
  else matchesSafeZfsTokenRe s

/-- Snapshot value object (utils/models.py `ZFSSnapshot`).  `creation` is
`some t` when the creation column parsed to a timestamp and `none` when
parsing failed and the raw string was retained. -/
structure ZFSSnapshot where
  dataset : String
  name : String
  creation : Option Int
  used : String
  referenced : String
deriving DecidableEq

/-- Modelled from the spec: utils/models.py (the `ZFSSnapshot` class with
its `full_name` accessor) is not present under src/; spec section 3 defines
`fullName = dataset + "@" + name`. -/
def ZFSSnapshot.full_name (s : ZFSSnapshot) : String :=
  s.dataset ++ "@" ++ s.name

/-- Construction of the full snapshot name in zfs_core.py
`create_snapshot` (`f"{dataset}@{name}"`). -/
def make_full_name (dataset name : String) : String :=
  dataset ++ "@" ++ name

/-- Python `s.split(sep, 1)` as used in zfs_core.py `get_snapshots`:
split on the first occurrence of the separator. -/
def py_split_once (s : String) (sep : Char) : List String :=
  if s.toList.contains sep then
    [(s.toList.takeWhile (fun c => c ≠ sep)).asString,
     ((s.toList.dropWhile (fun c => c ≠ sep)).drop 1).asString]
  else [s]

/-- Outcome of the validation stage of a single mutating snapshot
operation: either a local validation error or the argument vector
delegated to the privilege manager. -/
inductive OpResult where
  | validationError (msg : String)
  | delegated (cmd : List String)
deriving DecidableEq

/-- zfs_core.py `delete_snapshot` up to the privileged call: the guard
and the constructed `zfs destroy` command. -/
def delete_snapshot (full : String) : OpResult :=
  if !is_safe_zfs_token full || !(full.toList.contains '@') then
    OpResult.validationError ("Invalid snapshot identifier")
  else
    OpResult.delegated (["zfs", "destroy", full])

/-- zfs_core.py `rollback_snapshot` up to the privileged call: the guard
and the constructed `zfs rollback [-r]` command. -/
def rollback_snapshot (full : String) (force : Bool) : OpResult :=
  if !is_safe_zfs_token full || !(full.toList.contains '@') then
    OpResult.validationError ("Invalid snapshot identifier")
  else
    OpResult.delegated (["zfs", "rollback"] ++ (if force then ["-r"] else []) ++ [full])

/-- zfs_core.py `clone_snapshot` up to the privileged call: the guards
and the constructed `zfs clone` command. -/
def clone_snapshot (full target : String) : OpResult :=
  if !is_safe_zfs_token full || !(full.toList.contains '@') then
    OpResult.validationError ("Invalid snapshot identifier")
  else if !is_safe_zfs_token target then
    OpResult.validationError ("Invalid target dataset name")
  else
    OpResult.delegated (["zfs", "clone", full, target])

/-- Outcome of zfs_backup.py `send_snapshot`: a validation error, an
authentication failure, or the spawned send and receive pipelines. -/
inductive SendResult where
  | validationError (msg : String)
  | authFailure (msg : String)
  | spawned (sendCmd receiveCmd : List String)
deriving DecidableEq

/-- zfs_backup.py `send_snapshot`.  `authOk` models the outcome of the
gating no-op privileged probe; `incremental` models the optional base
snapshot, with Python string truthiness (an empty string behaves as
absent). -/
def send_snapshot (full targetPool : String) (authOk : Bool)
    (incremental : Option String) : SendResult :=
  if !is_safe_zfs_token full || !(full.toList.contains '@') then
    SendResult.validationError ("Invalid snapshot identifier")
  else if !is_safe_zfs_token targetPool then
    SendResult.validationError ("Invalid target pool name")
  else if incremental.getD ("") != "" && !is_safe_zfs_token (incremental.getD ("")) then
    SendResult.validationError ("Invalid incremental snapshot identifier")
  else if !authOk then
    SendResult.authFailure ("Failed to obtain administrative privileges for ZFS send/receive operation")
  else if incremental.getD ("") != "" then
    SendResult.spawned (["zfs", "send", "-i", incremental.getD (""), full])
      (["zfs", "receive", "-F", targetPool])
  else
    SendResult.spawned (["zfs", "send", full]) (["zfs", "receive", "-F", targetPool])

/-- Sort key used by zfs_core.py `cleanup_snapshots` and zfs_backup.py
`perform_backup`: the parsed creation time, with unparseable times
replaced by `datetime.min`, i.e. a bottom element below every real
timestamp. -/
def sortKey (s : ZFSSnapshot) : WithBot Int :=
  match s.creation with
  | some t => (t : WithBot Int)
  | none => ⊥

/-- The descending-by-creation-time order (`sorted(..., reverse=True)`). -/
def snapDescRel : ZFSSnapshot → ZFSSnapshot → Prop :=
  fun a b => sortKey b ≤ sortKey a

instance : DecidableRel snapDescRel :=
  fun a b => inferInstanceAs (Decidable (sortKey b ≤ sortKey a))

instance : IsTotal ZFSSnapshot snapDescRel :=
  ⟨fun a b => le_total (sortKey b) (sortKey a)⟩

instance : IsTrans ZFSSnapshot snapDescRel :=
  ⟨fun _ _ _ hab hbc => le_trans hbc hab⟩

/-- `sorted(snapshots, key=..., reverse=True)`: descending sort with
unparseable creation times at the end. -/
def sortSnapshotsDesc (l : List ZFSSnapshot) : List ZFSSnapshot :=
  List.insertionSort snapDescRel l

/-- Fallback value for the (unreachable) head of an empty sorted list. -/
def defaultSnapshot : ZFSSnapshot := ⟨"", "", none, "", ""⟩

/-- Retention policy (zfs_core.py `cleanup_snapshots`):
`keep_count` and `max_age_days`. -/
structure RetentionPolicy where
  keepCount : Nat
  maxAgeDays : Int
deriving DecidableEq

/-- Age of a timestamp in whole days (`(datetime.now() - creation).days`,
which floors, also for negative differences). -/
def ageDays (now t : Int) : Int := Int.fdiv (now - t) 86400

/-- The marking step inside the loop of zfs_core.py `cleanup_snapshots`:
`should_delete` starts false, is set by the count-rank test, and is set by
the age test when the creation time parsed. -/
def should_delete (pol : RetentionPolicy) (now : Int) (i : Nat) (s : ZFSSnapshot) : Bool :=
  let d0 := false
  let d1 := if pol.keepCount ≤ i then true else d0
  match s.creation with
  | some t => if pol.maxAgeDays < ageDays now t then true else d1
  | none => d1

/-- The snapshots marked for deletion by `cleanup_snapshots`, in sorted
order. -/
def snapshots_to_delete (pol : RetentionPolicy) (now : Int)
    (snaps : List ZFSSnapshot) : List ZFSSnapshot :=
  ((sortSnapshotsDesc snaps).enum.filter (fun p => should_delete pol now p.1 p.2)).map
    (fun p => p.2)

/-- The batched destroy commands submitted by `cleanup_snapshots`. -/
def cleanup_delete_commands (pol : RetentionPolicy) (now : Int)
    (snaps : List ZFSSnapshot) : List (List String) :=
  (snapshots_to_delete pol now snaps).map (fun s => ["zfs", "destroy", s.full_name])

/-- One insertion into a Python dict keyed by snapshot name: an existing
key keeps its position but takes the new value, a new key is appended. -/
def dictInsert (m : List (String × ZFSSnapshot)) (k : String) (v : ZFSSnapshot) :
    List (String × ZFSSnapshot) :=
  if m.any (fun p => p.1 == k) then
    m.map (fun p => if p.1 == k then (k, v) else p)
  else m ++ [(k, v)]

/-- The dict comprehension `{snapshot.name: snapshot for snapshot in l}`
of zfs_backup.py `get_latest_common_snapshot`. -/
def buildSnapshotDict (l : List ZFSSnapshot) : List (String × ZFSSnapshot) :=
  l.foldl (fun m s => dictInsert m s.name s) []

/-- One iteration of the selection loop of `get_latest_common_snapshot`:
keep a snapshot whose parsed creation time strictly exceeds the running
maximum; entries with unparseable creation times are never selected. -/
def pickStep (acc : Option ZFSSnapshot × WithBot Int) (s : ZFSSnapshot) :
    Option ZFSSnapshot × WithBot Int :=
  match s.creation with
  | some t => if acc.2 < (t : WithBot Int) then (some s, (t : WithBot Int)) else acc
  | none => acc

/-- The selection loop of `get_latest_common_snapshot`, starting from no
candidate and the running maximum `datetime.min`, i.e. bottom. -/
def pickLatestCommon (common : List ZFSSnapshot) : Option ZFSSnapshot :=
  (common.foldl pickStep ((none : Option ZFSSnapshot), (⊥ : WithBot Int))).1

/-- zfs_backup.py `get_latest_common_snapshot`.  `coreAvailable` models
`self.zfs_core is not None`; the two lists model the snapshot listings of
the source dataset and of the target pool.  The unspecified iteration
order of the Python name set is modelled as source-dict insertion
order. -/
def get_latest_common_snapshot (coreAvailable : Bool)
    (sourceSnaps targetSnaps : List ZFSSnapshot) : Option String :=
  if !coreAvailable then none
  else
    let sourceDict := buildSnapshotDict sourceSnaps
    let targetDict := buildSnapshotDict targetSnaps
    let common := sourceDict.filter (fun p => targetDict.any (fun q => q.1 == p.1))
    if common.isEmpty then none
    else (pickLatestCommon (common.map (fun p => p.2))).map (fun s => s.full_name)

/-- Outcome of zfs_backup.py `perform_backup`: an early error, the no-op
success, or the result of the delegated `send_snapshot`. -/
inductive BackupOutcome where
  | err (msg : String)
  | noop (msg : String)
  | sendResult (r : SendResult)
deriving DecidableEq

/-- zfs_backup.py `perform_backup`.  `poolReachable` models the
`zfs list target_pool` existence probe, `coreAvailable` the injected core
dependency, `authOk` the privileged probe inside `send_snapshot`; the two
lists model the snapshot listings. -/
def perform_backup (dataset targetPool : String)
    (coreAvailable poolReachable authOk : Bool)
    (sourceSnaps targetSnaps : List ZFSSnapshot) : BackupOutcome :=
  if !coreAvailable then
    BackupOutcome.err ("Backup module is not initialized with ZFS core dependency")
  else if !is_safe_zfs_token dataset then
    BackupOutcome.err ("Invalid source dataset name")
  else if !is_safe_zfs_token targetPool then
    BackupOutcome.err ("Invalid target pool name")
  else if !poolReachable then
    BackupOutcome.err ("Target pool does not exist or is not accessible")
  else if sourceSnaps.isEmpty then
    BackupOutcome.err ("No snapshots found")
  else
    let latest := (sortSnapshotsDesc sourceSnaps).headD defaultSnapshot
    match get_latest_common_snapshot coreAvailable sourceSnaps targetSnaps with
    | some common =>
      if common = latest.full_name then
        BackupOutcome.noop ("Latest snapshot " ++ latest.full_name ++ " already exists in target pool")
      else
        BackupOutcome.sendResult (send_snapshot latest.full_name targetPool authOk (some common))
    | none =>
      BackupOutcome.sendResult (send_snapshot latest.full_name targetPool authOk none)

/-- The mutable session of privilege_manager.py `PrivilegeManager`,
made explicit: `_auth_cache_time`, `_auth_cache_duration`,
`_session_active`, `_initial_auth_completed`. -/
structure PrivSession where
  authCacheTime : Int
  authCacheDuration : Int
  sessionActive : Bool
  initialAuthCompleted : Bool
deriving DecidableEq

/-- The constructor state of `PrivilegeManager`: cache time 0, duration
900 seconds, not active. -/
def initPrivSession : PrivSession := PrivSession.mk 0 900 false false

/-- privilege_manager.py `_is_auth_cached`. -/
def isAuthCached (st : PrivSession) (now : Int) : Bool :=
  now - st.authCacheTime < st.authCacheDuration

/-- privilege_manager.py `_refresh_auth_cache`: `probeOk` models the
outcome of the `pkexec true` probe (false covers non-zero exit, timeout
and unexpected errors, which all leave the session inactive). -/
def refreshAuthCache (st : PrivSession) (now : Int) (probeOk : Bool) :
    PrivSession × Bool :=
  if probeOk then
    (PrivSession.mk now st.authCacheDuration true true, true)
  else
    (PrivSession.mk st.authCacheTime st.authCacheDuration false st.initialAuthCompleted, false)

/-- Result of one `run_privileged_command` call: the returned pair, the
final session state, how many authentication probes ran, and whether the
actual command was executed. -/
structure RunOutcome where
  ok : Bool
  msg : String
  finalState : PrivSession
  probes : Nat
  executed : Bool
deriving DecidableEq

/-- privilege_manager.py `run_privileged_command`.  `isRoot` models
`os.geteuid() == 0`, `probeOk` the re-authentication probe outcome, and
`cmdResult` the outcome of the actual command (`Except.error` carries the
stderr text of a failure). -/
def run_privileged_command (st : PrivSession) (now : Int) (isRoot : Bool)
    (probeOk : Bool) (cmdResult : Except String String) : RunOutcome :=
  if isRoot then
    match cmdResult with
    | Except.ok out => RunOutcome.mk true out st 0 true
    | Except.error e => RunOutcome.mk false ("Command failed: " ++ e) st 0 true
  else if isAuthCached st now then
    match cmdResult with
    | Except.ok out => RunOutcome.mk true out st 0 true
    | Except.error e => RunOutcome.mk false ("Command failed: " ++ e) st 0 true
  else
    let r := refreshAuthCache st now probeOk
    if r.2 then
      match cmdResult with
      | Except.ok out => RunOutcome.mk true out r.1 1 true
      | Except.error e => RunOutcome.mk false ("Command failed: " ++ e) r.1 1 true
    else
      RunOutcome.mk false ("Failed to obtain administrative privileges") r.1 1 false

/-- Result of one `run_batch_privileged_commands` call: the returned
pair, the final session state, the number of authentication probes, and
the commands actually handed to the process layer, in order. -/
structure BatchOutcome where
  ok : Bool
  msg : String
  finalState : PrivSession
  probes : Nat
  attempted : List (List String)
deriving DecidableEq

/-- The root-identity loop of `run_batch_privileged_commands`: run each
command in order, collect stdout, and return immediately on the first
failure.  Returns (success, message, attempted commands). -/
def runBatchRootLoop (exec : List String → Except String String) :
    List (List String) → List String → Bool × String × List (List String)
  | [], outs => (true, String.intercalate ("\n") outs.reverse, [])
  | c :: cs, outs =>
    match exec c with
    | Except.ok out =>
      let r := runBatchRootLoop exec cs (out :: outs)
      (r.1, r.2.1, c :: r.2.2)
    | Except.error e =>
      (false, "Command failed: " ++ String.intercalate (" ") c ++ " - " ++ e, [c])

/-- privilege_manager.py `run_batch_privileged_commands`.  `exec` models
per-command execution on the root path; `scriptResult` models the single
`pkexec bash script` execution on the elevation path. -/
def run_batch_privileged_commands (st : PrivSession) (now : Int) (isRoot : Bool)
    (probeOk : Bool) (exec : List String → Except String String)
    (scriptResult : Except String String)
    (commands : List (List String)) : BatchOutcome :=
  if commands.isEmpty then
    BatchOutcome.mk true ("No commands to execute") st 0 []
  else if isRoot then
    let r := runBatchRootLoop exec commands []
    BatchOutcome.mk r.1 r.2.1 st 0 r.2.2
  else if isAuthCached st now then
    match scriptResult with
    | Except.ok out => BatchOutcome.mk true out st 0 commands
    | Except.error e => BatchOutcome.mk false ("Batch execution failed: " ++ e) st 0 commands
  else
    let r := refreshAuthCache st now probeOk
    if r.2 then
      match scriptResult with
      | Except.ok out => BatchOutcome.mk true out r.1 1 commands
      | Except.error e => BatchOutcome.mk false ("Batch execution failed: " ++ e) r.1 1 commands
    else
      BatchOutcome.mk false ("Failed to obtain administrative privileges") r.1 1 []

/-- Example snapshots for witnesses: source dataset tank with snapshots
a, b, c at increasing creation times. -/
def exSnapA : ZFSSnapshot := ⟨"tank", "a", some 1, "0B", "0B"⟩

def exSnapB : ZFSSnapshot := ⟨"tank", "b", some 2, "0B", "0B"⟩

def exSnapC : ZFSSnapshot := ⟨"tank", "c", some 3, "0B", "0B"⟩

def exSrcSnaps : List ZFSSnapshot := [exSnapA, exSnapB, exSnapC]

/-- Target-pool copies of a and c (different parent dataset, same bare
names). -/
def exTgtSnaps : List ZFSSnapshot :=
  [⟨"backup/tank", "a", some 1, "0B", "0B"⟩, ⟨"backup/tank", "c", some 3, "0B", "0B"⟩]

/-- Example batch executor that fails exactly on the middle command. -/
def exBatchExec : List String → Except String String :=
  fun c => if c = ["zfs", "destroy", "tank@b"] then Except.error ("boom") else Except.ok ("done")

/-! Helper lemmas. -/

lemma string_toList_append (a b : String) : (a ++ b).toList = a.toList ++ b.toList := by
  cases a; cases b; rfl

lemma asString_toList_eq (s : String) : s.toList.asString = s := by
  cases s; rfl

lemma string_eq_empty_iff (s : String) : (s = "") ↔ s.toList = [] := by
  rw [String.ext_iff]
  exact Iff.rfl

lemma safe_char_not_disallowed (c : Char) (h : isSafeTokenChar c = true) :
    c ∉ disallowedShellChars := by
  intro hmem
  simp only [disallowedShellChars, List.mem_cons, List.not_mem_nil, or_false] at hmem
  rcases hmem with rfl | rfl | rfl | rfl | rfl | rfl | rfl | rfl | rfl | rfl | rfl | rfl | rfl | rfl <;>
    exact absurd h (by decide)

lemma contains_at_not_safe (s : String) (h : s.toList.contains '@' = true) :
    is_safe_zfs_token s = false := by
  have hmem : '@' ∈ s.toList := by simpa using h
  have hall : s.toList.all isSafeTokenChar = false := by
    simp only [List.all_eq_false]
    exact ⟨'@', hmem, by decide⟩
  have hne : ¬s = "" := by
    rw [string_eq_empty_iff]
    intro hnil
    rw [hnil] at hmem
    exact absurd hmem (List.not_mem_nil _)
  unfold is_safe_zfs_token matchesSafeZfsTokenRe
  rw [if_neg hne, if_neg hne]
  split
  · rfl
  · exact hall

lemma full_name_toList (dataset name : String) :
    (make_full_name dataset name).toList = dataset.toList ++ '@' :: name.toList := by
  unfold make_full_name
  rw [string_toList_append, string_toList_append, List.append_assoc]
  rfl

lemma full_name_contains_at (dataset name : String) :
    (make_full_name dataset name).toList.contains '@' = true := by
  rw [full_name_toList]
  simp

/-! Claim theorems. -/

/-- Claim C3: the token validator rejects every string containing a
disallowed shell character (the claim's eleven characters are all members
of `disallowedShellChars`), accepts every non-empty string all of whose
characters lie in the class `[A-Za-z0-9._:/+-]`, and rejects the empty
string. -/
theorem token_validator_spec :
    (∀ s : String, ∀ c : Char, c ∈ disallowedShellChars → c ∈ s.toList →
      is_safe_zfs_token s = false) ∧
    (∀ s : String, matchesSafeZfsTokenRe s = true → is_safe_zfs_token s = true) ∧
    is_safe_zfs_token ("") = false := by
  refine ⟨?_, ?_, by decide⟩
  · intro s c hc hs
    have hne : ¬s = "" := by
      rw [string_eq_empty_iff]
      intro hnil
      rw [hnil] at hs
      exact absurd hs (List.not_mem_nil _)
    have hany : s.toList.any (fun ch => disallowedShellChars.contains ch) = true := by
      rw [List.any_eq_true]
      exact ⟨c, hs, by simpa using hc⟩
    unfold is_safe_zfs_token
    rw [if_neg hne, hany]
    rfl
  · intro s hm
    have hne : ¬s = "" := by
      intro h
      rw [h] at hm
      exact absurd hm (by decide)
    have hall : ∀ ch ∈ s.toList, isSafeTokenChar ch = true := by
      have := hm
      unfold matchesSafeZfsTokenRe at this
      rw [if_neg hne] at this
      exact List.all_eq_true.mp this
    have hany : s.toList.any (fun ch => disallowedShellChars.contains ch) = false := by
      rw [List.any_eq_false]
      intro ch hch
      have hsafe := hall ch hch
      have := safe_char_not_disallowed ch hsafe
      simpa using this
    unfold is_safe_zfs_token
    rw [if_neg hne, hany]
    simpa using hm

/-- Witness for C3 at concrete inputs: a string containing a space is
rejected, a class-matching string is accepted, the empty string is
rejected. -/
theorem token_validator_spec_witness :
    is_safe_zfs_token ("tank pool") = false ∧
    is_safe_zfs_token ("tank/data_1.x:+-") = true ∧
    is_safe_zfs_token ("") = false :=
  ⟨token_validator_spec.1 ("tank pool") ' ' (by decide) (by decide),
   token_validator_spec.2.1 ("tank/data_1.x:+-") (by decide),
   token_validator_spec.2.2⟩

/-- Claim C1: for every full name `dataset@name` built from two valid
tokens, `delete_snapshot`, `rollback_snapshot` and `clone_snapshot`
return the local validation error instead of delegating to the privilege
manager: the guard demands `is_safe_zfs_token` of the full name, whose
character class excludes the mandatory separator, so it is
unsatisfiable.  This refutes the claim (and the functions' own
documentation) that valid full names pass validation and reach
`runPrivileged`. -/
theorem delete_rollback_clone_reject_valid_full_names (dataset name : String)
    (hd : is_safe_zfs_token dataset = true) (hn : is_safe_zfs_token name = true) :
    delete_snapshot (make_full_name dataset name) =
      OpResult.validationError ("Invalid snapshot identifier") ∧
    (∀ force, rollback_snapshot (make_full_name dataset name) force =
      OpResult.validationError ("Invalid snapshot identifier")) ∧
    (∀ target, clone_snapshot (make_full_name dataset name) target =
      OpResult.validationError ("Invalid snapshot identifier")) := by
  have hsafe : is_safe_zfs_token (make_full_name dataset name) = false :=
    contains_at_not_safe _ (full_name_contains_at dataset name)
  refine ⟨?_, fun force => ?_, fun target => ?_⟩ <;>
    simp [delete_snapshot, rollback_snapshot, clone_snapshot, hsafe]

/-- Witness for C1 at the concrete failing input tank@snap1. -/
theorem delete_rollback_clone_reject_valid_full_names_witness :
    delete_snapshot (make_full_name ("tank") ("snap1")) =
      OpResult.validationError ("Invalid snapshot identifier") ∧
    (∀ force, rollback_snapshot (make_full_name ("tank") ("snap1")) force =
      OpResult.validationError ("Invalid snapshot identifier")) ∧
    (∀ target, clone_snapshot (make_full_name ("tank") ("snap1")) target =
      OpResult.validationError ("Invalid snapshot identifier")) :=
  delete_rollback_clone_reject_valid_full_names ("tank") ("snap1") (by decide) (by decide)

/-- Claim C2: every send of an actual snapshot (a full name containing
the separator) is rejected by `send_snapshot` at validation, before any
transfer process is spawned, and consequently `perform_backup` on a valid
dataset with one snapshot and no common snapshot ends in that validation
error instead of a full send.  This refutes the claim that the send
succeeds for valid inputs. -/
theorem send_rejected_before_spawn :
    (∀ (full pool : String) (authOk : Bool) (incr : Option String),
       full.toList.contains '@' = true →
       send_snapshot full pool authOk incr =
         SendResult.validationError ("Invalid snapshot identifier")) ∧
    perform_backup ("tank") ("backup") true true true [⟨"tank", "s1", some 5, "0B", "0B"⟩] [] =
      BackupOutcome.sendResult (SendResult.validationError ("Invalid snapshot identifier")) := by
  constructor
  · intro full pool authOk incr h
    have hsafe := contains_at_not_safe full h
    simp [send_snapshot, hsafe]
  · decide

/-- Witness for C2 at the concrete failing input tank@s1. -/
theorem send_rejected_before_spawn_witness :
    send_snapshot ("tank@s1") ("backup") true none =
      SendResult.validationError ("Invalid snapshot identifier") :=
  send_rejected_before_spawn.1 ("tank@s1") ("backup") true none (by decide)

/-! Split lemmas for the round-trip claim. -/

lemma takeWhile_before_sep (sep : Char) (r : List Char) :
    ∀ (l : List Char), (∀ c ∈ l, c ≠ sep) →
      (l ++ sep :: r).takeWhile (fun c => decide (c ≠ sep)) = l
  | [], _ => by simp
  | c :: cs, h => by
    have hc : c ≠ sep := h c (List.mem_cons_self ..)
    have ih := takeWhile_before_sep sep r cs (fun x hx => h x (List.mem_cons_of_mem _ hx))
    simp only [List.cons_append, List.takeWhile_cons, decide_eq_true hc, if_true]
    rw [ih]

lemma dropWhile_before_sep (sep : Char) (r : List Char) :
    ∀ (l : List Char), (∀ c ∈ l, c ≠ sep) →
      (l ++ sep :: r).dropWhile (fun c => decide (c ≠ sep)) = sep :: r
  | [], _ => by simp
  | c :: cs, h => by
    have hc : c ≠ sep := h c (List.mem_cons_self ..)
    have ih := dropWhile_before_sep sep r cs (fun x hx => h x (List.mem_cons_of_mem _ hx))
    simp only [List.cons_append, List.dropWhile_cons, decide_eq_true hc, if_true]
    rw [ih]

/-- Claim C9: a full name built from two valid tokens, neither containing
the separator, splits back on the first separator occurrence to the
identical (dataset, name) pair. -/
theorem full_name_round_trip (dataset name : String)
    (hd : is_safe_zfs_token dataset = true) (hn : is_safe_zfs_token name = true)
    (had : dataset.toList.contains '@' = false) (han : name.toList.contains '@' = false) :
    py_split_once (make_full_name dataset name) '@' = [dataset, name] := by
  have hmem : ∀ c ∈ dataset.toList, c ≠ '@' := by
    intro c hc heq
    subst heq
    have h1 : dataset.toList.contains '@' = true := by simpa using hc
    rw [h1] at had
    exact absurd had (by decide)
  unfold py_split_once
  rw [show (make_full_name dataset name).toList = dataset.toList ++ '@' :: name.toList from
    full_name_toList dataset name]
  have hcontains : (dataset.toList ++ '@' :: name.toList).contains '@' = true := by simp
  rw [if_pos hcontains]
  rw [takeWhile_before_sep '@' name.toList dataset.toList hmem]
  rw [dropWhile_before_sep '@' name.toList dataset.toList hmem]
  simp only [List.drop_succ_cons, List.drop_zero, List.cons.injEq]
  exact ⟨asString_toList_eq dataset, asString_toList_eq name, trivial⟩

/-- Witness for C9 at the concrete pair (tank/data, daily-2025). -/
theorem full_name_round_trip_witness :
    py_split_once (make_full_name ("tank/data") ("daily-2025")) '@' =
      ["tank/data", "daily-2025"] :=
  full_name_round_trip ("tank/data") ("daily-2025") (by decide) (by decide) (by decide) (by decide)

/-- Claim C10: the batch executor on an empty command list returns
success with the no-op message, runs no authentication probe, hands no
command to the process layer, and leaves the session unchanged. -/
theorem batch_empty_commands (st : PrivSession) (now : Int) (isRoot probeOk : Bool)
    (exec : List String → Except String String) (scriptResult : Except String String) :
    run_batch_privileged_commands st now isRoot probeOk exec scriptResult [] =
      BatchOutcome.mk true ("No commands to execute") st 0 [] := rfl

/-- Claim C6: a non-root privileged call with the session cache expired
runs exactly one re-authentication probe; on probe success the cache time
is stamped to now, the session becomes active and the command executes;
on probe failure the session is inactive, the command is not executed and
the call returns the distinct authentication error.  The default cache
window is 900 seconds. -/
theorem privileged_call_expired_cache (st : PrivSession) (now : Int) (probeOk : Bool)
    (cmdResult : Except String String)
    (hexp : st.authCacheDuration ≤ now - st.authCacheTime) :
    (run_privileged_command st now false probeOk cmdResult).probes = 1 ∧
    (probeOk = true →
      (run_privileged_command st now false probeOk cmdResult).finalState.authCacheTime = now ∧
      (run_privileged_command st now false probeOk cmdResult).finalState.sessionActive = true ∧
      (run_privileged_command st now false probeOk cmdResult).executed = true) ∧
    (probeOk = false →
      (run_privileged_command st now false probeOk cmdResult).finalState.sessionActive = false ∧
      (run_privileged_command st now false probeOk cmdResult).executed = false ∧
      (run_privileged_command st now false probeOk cmdResult).ok = false ∧
      (run_privileged_command st now false probeOk cmdResult).msg =
        "Failed to obtain administrative privileges") ∧
    initPrivSession.authCacheDuration = 900 := by
  have hnc : isAuthCached st now = false := by
    unfold isAuthCached
    exact decide_eq_false (not_lt.mpr hexp)
  cases probeOk <;> cases cmdResult <;>
    simp [run_privileged_command, refreshAuthCache, hnc, initPrivSession]

/-- Witness for C6: the fresh session at time 1000 is expired; with a
failing probe the call returns the authentication error. -/
theorem privileged_call_expired_cache_witness :
    (run_privileged_command initPrivSession 1000 false false (Except.ok (""))).probes = 1 ∧
    (false = true →
      (run_privileged_command initPrivSession 1000 false false (Except.ok (""))).finalState.authCacheTime = 1000 ∧
      (run_privileged_command initPrivSession 1000 false false (Except.ok (""))).finalState.sessionActive = true ∧
      (run_privileged_command initPrivSession 1000 false false (Except.ok (""))).executed = true) ∧
    (false = false →
      (run_privileged_command initPrivSession 1000 false false (Except.ok (""))).finalState.sessionActive = false ∧
      (run_privileged_command initPrivSession 1000 false false (Except.ok (""))).executed = false ∧
      (run_privileged_command initPrivSession 1000 false false (Except.ok (""))).ok = false ∧
      (run_privileged_command initPrivSession 1000 false false (Except.ok (""))).msg =
        "Failed to obtain administrative privileges") ∧
    initPrivSession.authCacheDuration = 900 :=
  privileged_call_expired_cache initPrivSession 1000 false (Except.ok ("")) (by decide)

/-! Lemmas about the root-identity batch loop. -/

lemma runBatchRootLoop_ok_iff (exec : List String → Except String String) :
    ∀ (cmds : List (List String)) (outs : List String),
      ((runBatchRootLoop exec cmds outs).1 = true ↔ ∀ c ∈ cmds, ∃ s, exec c = Except.ok s)
  | [], outs => by simp [runBatchRootLoop]
  | c :: cs, outs => by
    cases hc : exec c with
    | ok out =>
      have ih := runBatchRootLoop_ok_iff exec cs (out :: outs)
      simp only [runBatchRootLoop, hc]
      rw [ih]
      constructor
      · intro h x hx
        rcases List.mem_cons.mp hx with rfl | hx2
        · exact ⟨out, hc⟩
        · exact h x hx2
      · intro h x hx
        exact h x (List.mem_cons_of_mem _ hx)
    | error e =>
      simp only [runBatchRootLoop, hc]
      constructor
      · intro h
        exact absurd h (by decide)
      · intro h
        rcases h c (List.mem_cons_self ..) with ⟨s, hs⟩
        rw [hc] at hs
        exact absurd hs (by simp)

lemma runBatchRootLoop_all_ok (exec : List String → Except String String) :
    ∀ (cmds : List (List String)) (outs : List String),
      (∀ c ∈ cmds, ∃ s, exec c = Except.ok s) →
      (runBatchRootLoop exec cmds outs).2.2 = cmds
  | [], outs, _ => by simp [runBatchRootLoop]
  | c :: cs, outs, h => by
    rcases h c (List.mem_cons_self ..) with ⟨s, hs⟩
    have ih := runBatchRootLoop_all_ok exec cs (s :: outs)
      (fun x hx => h x (List.mem_cons_of_mem _ hx))
    simp only [runBatchRootLoop, hs]
    rw [ih]

lemma runBatchRootLoop_fail (exec : List String → Except String String) :
    ∀ (pre : List (List String)) (c : List String) (post : List (List String))
      (outs : List String) (e : String),
      (∀ p ∈ pre, ∃ s, exec p = Except.ok s) → exec c = Except.error e →
      (runBatchRootLoop exec (pre ++ c :: post) outs).1 = false ∧
      (runBatchRootLoop exec (pre ++ c :: post) outs).2.2 = pre ++ [c]
  | [], c, post, outs, e, _, hc => by
    simp [runBatchRootLoop, hc]
  | p :: ps, c, post, outs, e, hpre, hc => by
    rcases hpre p (List.mem_cons_self ..) with ⟨s, hs⟩
    have ih := runBatchRootLoop_fail exec ps c post (s :: outs) e
      (fun x hx => hpre x (List.mem_cons_of_mem _ hx)) hc
    simp only [List.cons_append, runBatchRootLoop, hs]
    exact ⟨ih.1, congrArg (fun l => p :: l) ih.2⟩

/-- Claim C7: a non-empty batch run while already holding the privileged
identity executes commands sequentially in submission order and fails
fast: it succeeds exactly when every command succeeds (in which case all
commands were attempted in order), and when the commands up to the first
failure succeed, the batch stops at that failure — the attempted list is
precisely the successful front followed by the failing command — and the
whole batch is reported as failed. -/
theorem batch_root_sequential_fail_fast (cmds : List (List String))
    (exec : List String → Except String String) (st : PrivSession) (now : Int)
    (probeOk : Bool) (scriptResult : Except String String) (hne : cmds ≠ []) :
    ((run_batch_privileged_commands st now true probeOk exec scriptResult cmds).ok = true ↔
      ∀ c ∈ cmds, ∃ s, exec c = Except.ok s) ∧
    ((run_batch_privileged_commands st now true probeOk exec scriptResult cmds).ok = true →
      (run_batch_privileged_commands st now true probeOk exec scriptResult cmds).attempted = cmds) ∧
    (∀ pre c post e, cmds = pre ++ c :: post →
      (∀ p ∈ pre, ∃ s, exec p = Except.ok s) → exec c = Except.error e →
      (run_batch_privileged_commands st now true probeOk exec scriptResult cmds).ok = false ∧
      (run_batch_privileged_commands st now true probeOk exec scriptResult cmds).attempted =
        pre ++ [c]) := by
  have hemp : cmds.isEmpty = false := by
    cases cmds with
    | nil => exact absurd rfl hne
    | cons a l => rfl
  unfold run_batch_privileged_commands
  rw [hemp]
  simp only [Bool.false_eq_true, if_false, if_true]
  refine ⟨runBatchRootLoop_ok_iff exec cmds [], ?_, ?_⟩
  · intro h
    exact runBatchRootLoop_all_ok exec cmds []
      ((runBatchRootLoop_ok_iff exec cmds []).mp h)
  · intro pre c post e hsplit hpre hc
    subst hsplit
    exact runBatchRootLoop_fail exec pre c post [] e hpre hc

/-- Witness for C7: a three-command batch whose middle command fails is
reported failed with only the first two commands attempted. -/
theorem batch_root_sequential_fail_fast_witness :
    (run_batch_privileged_commands initPrivSession 0 true true exBatchExec (Except.ok (""))
      [["zfs", "destroy", "tank@a"], ["zfs", "destroy", "tank@b"],
       ["zfs", "destroy", "tank@c"]]).ok = false ∧
    (run_batch_privileged_commands initPrivSession 0 true true exBatchExec (Except.ok (""))
      [["zfs", "destroy", "tank@a"], ["zfs", "destroy", "tank@b"],
       ["zfs", "destroy", "tank@c"]]).attempted =
      [["zfs", "destroy", "tank@a"]] ++ [["zfs", "destroy", "tank@b"]] :=
  (batch_root_sequential_fail_fast
      [["zfs", "destroy", "tank@a"], ["zfs", "destroy", "tank@b"], ["zfs", "destroy", "tank@c"]]
      exBatchExec initPrivSession 0 true (Except.ok ("")) (by decide)).2.2
    [["zfs", "destroy", "tank@a"]] (["zfs", "destroy", "tank@b"])
    [["zfs", "destroy", "tank@c"]] ("boom") rfl
    (by
      intro p hp
      simp only [List.mem_singleton] at hp
      subst hp
      exact ⟨("done"), rfl⟩)
    rfl

/-- Claim C4: the retention engine's sorted list is a permutation of the
input, is sorted descending by creation time with unparseable creation
times at the bottom (they compare below every real timestamp), and the
marking decision at zero-based rank i is exactly the union of the
count-rank test and the age test (the age test applying to snapshots
whose creation time parsed). -/
theorem retention_sort_and_union (snaps : List ZFSSnapshot) (pol : RetentionPolicy) (now : Int)
    (hne : snaps ≠ []) :
    (sortSnapshotsDesc snaps).Perm snaps ∧
    List.Sorted snapDescRel (sortSnapshotsDesc snaps) ∧
    (∀ i s, (sortSnapshotsDesc snaps)[i]? = some s →
      (should_delete pol now i s = true ↔
        (pol.keepCount ≤ i ∨ ∃ t, s.creation = some t ∧ pol.maxAgeDays < ageDays now t))) := by
  refine ⟨List.perm_insertionSort snapDescRel snaps,
    List.sorted_insertionSort snapDescRel snaps, ?_⟩
  intro i s _
  unfold should_delete
  cases hc : s.creation with
  | none => simp [hc]
  | some t =>
    by_cases hage : pol.maxAgeDays < ageDays now t <;>
      by_cases hcnt : pol.keepCount ≤ i <;>
        simp [hc, hage, hcnt]

/-- Witness for C4 on the three-snapshot example with keepCount 2 and
maxAgeDays 30. -/
theorem retention_sort_and_union_witness :
    (sortSnapshotsDesc exSrcSnaps).Perm exSrcSnaps ∧
    List.Sorted snapDescRel (sortSnapshotsDesc exSrcSnaps) ∧
    (∀ i s, (sortSnapshotsDesc exSrcSnaps)[i]? = some s →
      (should_delete ⟨2, 30⟩ 0 i s = true ↔
        (2 ≤ i ∨ ∃ t, s.creation = some t ∧ (30 : Int) < ageDays 0 t))) :=
  retention_sort_and_union exSrcSnaps ⟨2, 30⟩ 0 (by decide)

/-! Lemmas about the snapshot-name dict and the selection loop. -/

lemma dictInsert_inv (l0 : List ZFSSnapshot) (acc : List (String × ZFSSnapshot))
    (s : ZFSSnapshot) (hs : s ∈ l0)
    (hacc : ∀ p ∈ acc, p.2 ∈ l0 ∧ p.1 = p.2.name) :
    ∀ p ∈ dictInsert acc s.name s, p.2 ∈ l0 ∧ p.1 = p.2.name := by
  intro p hp
  unfold dictInsert at hp
  split at hp
  · rcases List.mem_map.mp hp with ⟨q, hq, hqe⟩
    split at hqe
    · rw [← hqe]
      exact ⟨hs, rfl⟩
    · rw [← hqe]
      exact hacc q hq
  · rcases List.mem_append.mp hp with h1 | h2
    · exact hacc p h1
    · simp only [List.mem_singleton] at h2
      rw [h2]
      exact ⟨hs, rfl⟩

lemma dictFold_inv (l0 : List ZFSSnapshot) :
    ∀ (l : List ZFSSnapshot), (∀ x ∈ l, x ∈ l0) →
      ∀ (acc : List (String × ZFSSnapshot)),
        (∀ p ∈ acc, p.2 ∈ l0 ∧ p.1 = p.2.name) →
        ∀ p ∈ l.foldl (fun m s => dictInsert m s.name s) acc, p.2 ∈ l0 ∧ p.1 = p.2.name
  | [], _, acc, hacc => by simpa using hacc
  | s :: l, hsub, acc, hacc => by
    simp only [List.foldl_cons]
    exact dictFold_inv l0 l (fun x hx => hsub x (List.mem_cons_of_mem _ hx))
      (dictInsert acc s.name s)
      (dictInsert_inv l0 acc s (hsub s (List.mem_cons_self ..)) hacc)

lemma buildDict_mem (l : List ZFSSnapshot) :
    ∀ p ∈ buildSnapshotDict l, p.2 ∈ l ∧ p.1 = p.2.name :=
  dictFold_inv l l (fun _ hx => hx) [] (by simp)

lemma dictFold_nodup :
    ∀ (l : List ZFSSnapshot) (acc : List (String × ZFSSnapshot)),
      (acc.map Prod.fst ++ l.map ZFSSnapshot.name).Nodup →
      l.foldl (fun m s => dictInsert m s.name s) acc = acc ++ l.map (fun s => (s.name, s))
  | [], acc, _ => by simp
  | s :: l, acc, h => by
    have hnotin : s.name ∉ acc.map Prod.fst := by
      rcases List.nodup_append.mp h with ⟨_, _, hdisj⟩
      intro hmem
      exact hdisj hmem (by simp)
    have hany : acc.any (fun p => p.1 == s.name) = false := by
      rw [List.any_eq_false]
      intro p hp
      have hne2 : p.1 ≠ s.name := by
        intro hpe
        exact hnotin (hpe ▸ List.mem_map_of_mem Prod.fst hp)
      simpa using hne2
    have hstep : dictInsert acc s.name s = acc ++ [(s.name, s)] := by
      unfold dictInsert
      rw [hany]
      rfl
    have hn2 : ((acc ++ [(s.name, s)]).map Prod.fst ++ l.map ZFSSnapshot.name).Nodup := by
      simpa [List.append_assoc] using h
    have ih := dictFold_nodup l (acc ++ [(s.name, s)]) hn2
    simp only [List.foldl_cons, hstep, ih, List.map_cons, List.append_assoc,
      List.singleton_append]

lemma buildDict_map (l : List ZFSSnapshot) (h : (l.map ZFSSnapshot.name).Nodup) :
    buildSnapshotDict l = l.map (fun s => (s.name, s)) :=
  dictFold_nodup l [] (by simpa using h)

lemma pickFold_stay (o : Option ZFSSnapshot) (b : WithBot Int) :
    ∀ (l : List ZFSSnapshot),
      (∀ s ∈ l, ∀ t : Int, s.creation = some t → (t : WithBot Int) ≤ b) →
      l.foldl pickStep (o, b) = (o, b)
  | [], _ => rfl
  | s :: l, h => by
    have hstep : pickStep (o, b) s = (o, b) := by
      unfold pickStep
      cases hc : s.creation with
      | none => rfl
      | some t => simp [not_lt.mpr (h s (List.mem_cons_self ..) t hc)]
    simp only [List.foldl_cons, hstep]
    exact pickFold_stay o b l (fun x hx => h x (List.mem_cons_of_mem _ hx))

lemma pickFold_max (sStar : ZFSSnapshot) (tStar : Int) :
    ∀ (l : List ZFSSnapshot) (o : Option ZFSSnapshot) (b : WithBot Int),
      sStar ∈ l → sStar.creation = some tStar →
      (∀ s ∈ l, s ≠ sStar → ∀ t : Int, s.creation = some t → t < tStar) →
      b < (tStar : WithBot Int) →
      l.foldl pickStep (o, b) = (some sStar, (tStar : WithBot Int))
  | [], _, _, hmem, _, _, _ => absurd hmem (List.not_mem_nil _)
  | s :: l, o, b, hmem, hcre, hbound, hb => by
    by_cases hss : s = sStar
    · subst hss
      have hstep : pickStep (o, b) s = (some s, (tStar : WithBot Int)) := by
        unfold pickStep
        rw [hcre]
        simp [hb]
      simp only [List.foldl_cons, hstep]
      apply pickFold_stay
      intro x hx t hxt
      by_cases hxs : x = s
      · subst hxs
        rw [hcre] at hxt
        injection hxt with he
        rw [he]
      · exact le_of_lt (WithBot.coe_lt_coe.mpr
          (hbound x (List.mem_cons_of_mem _ hx) hxs t hxt))
    · have hmem2 : sStar ∈ l := by
        rcases List.mem_cons.mp hmem with h1 | h1
        · exact absurd h1.symm hss
        · exact h1
      have hacc : ∃ o2 b2, pickStep (o, b) s = (o2, b2) ∧ b2 < (tStar : WithBot Int) := by
        unfold pickStep
        cases hc : s.creation with
        | none => exact ⟨o, b, rfl, hb⟩
        | some t =>
          have ht : t < tStar := hbound s (List.mem_cons_self ..) hss t hc
          by_cases hlt : b < (t : WithBot Int)
          · exact ⟨some s, (t : WithBot Int), by simp [hlt], WithBot.coe_lt_coe.mpr ht⟩
          · exact ⟨o, b, by simp [hlt], hb⟩
      rcases hacc with ⟨o2, b2, heq, hb2⟩
      simp only [List.foldl_cons, heq]
      exact pickFold_max sStar tStar l o2 b2 hmem2 hcre
        (fun x hx hxs t hxt => hbound x (List.mem_cons_of_mem _ hx) hxs t hxt) hb2

lemma any_pairs_eq (n : String) :
    ∀ (tgt : List ZFSSnapshot),
      ((tgt.map (fun s => (s.name, s))).any (fun q => q.1 == n)) =
        tgt.any (fun t => t.name == n)
  | [] => rfl
  | t :: ts => by
    simp only [List.map_cons, List.any_cons]
    rw [any_pairs_eq n ts]

lemma filter_pairs_eq (tgt : List ZFSSnapshot) :
    ∀ (l : List ZFSSnapshot),
      (l.map (fun s => (s.name, s))).filter
        (fun p => ((tgt.map (fun s => (s.name, s))).any (fun q => q.1 == p.1))) =
      (l.filter (fun s => tgt.any (fun t => t.name == s.name))).map (fun s => (s.name, s))
  | [] => rfl
  | a :: l => by
    have ih := filter_pairs_eq tgt l
    have hpred : ((tgt.map (fun s => (s.name, s))).any
        (fun q => q.1 == (a.name, a).1)) = tgt.any (fun t => t.name == a.name) :=
      any_pairs_eq a.name tgt
    simp only [List.map_cons, List.filter_cons, hpred]
    by_cases hc : tgt.any (fun t => t.name == a.name) = true
    · simp only [hc, if_true]
      rw [ih]
      rfl
    · simp only [Bool.not_eq_true] at hc
      simp only [hc, Bool.false_eq_true, if_false]
      exact ih

/-- Claim C5: the common-snapshot resolver returns nothing when the core
dependency is unavailable; returns nothing when the two listings share no
bare snapshot name; and when the listings have duplicate-free names and
some source-side snapshot sStar is in the intersection with a parsed
creation time strictly later than every other intersection member's, it
returns sStar's source-side full name. -/
theorem latest_common_snapshot_spec :
    (∀ src tgt : List ZFSSnapshot, get_latest_common_snapshot false src tgt = none) ∧
    (∀ src tgt : List ZFSSnapshot,
      (∀ s ∈ src, ∀ t ∈ tgt, s.name ≠ t.name) →
      get_latest_common_snapshot true src tgt = none) ∧
    (∀ (src tgt : List ZFSSnapshot) (sStar : ZFSSnapshot) (tStar : Int),
      (src.map ZFSSnapshot.name).Nodup →
      (tgt.map ZFSSnapshot.name).Nodup →
      sStar ∈ src →
      sStar.creation = some tStar →
      tgt.any (fun t => t.name == sStar.name) = true →
      (∀ s ∈ src, tgt.any (fun t => t.name == s.name) = true → s ≠ sStar →
        ∀ t : Int, s.creation = some t → t < tStar) →
      get_latest_common_snapshot true src tgt = some sStar.full_name) := by
  refine ⟨fun src tgt => rfl, ?_, ?_⟩
  · intro src tgt h
    have hflt : (buildSnapshotDict src).filter
        (fun p => (buildSnapshotDict tgt).any (fun q => q.1 == p.1)) = [] := by
      rw [List.filter_eq_nil_iff]
      intro p hp
      rcases buildDict_mem src p hp with ⟨hps, hpn⟩
      rw [Bool.not_eq_true, List.any_eq_false]
      intro q hq
      rcases buildDict_mem tgt q hq with ⟨hqt, hqn⟩
      have hne2 : q.1 ≠ p.1 := by
        rw [hqn, hpn]
        exact (h p.2 hps q.2 hqt).symm
      simpa using hne2
    simp only [get_latest_common_snapshot]
    rw [hflt]
    simp
  · intro src tgt sStar tStar hsrcN htgtN hmem hcre hint hbound
    simp only [get_latest_common_snapshot]
    rw [if_neg (by decide)]
    rw [buildDict_map src hsrcN, buildDict_map tgt htgtN]
    rw [filter_pairs_eq tgt src]
    have hmemF : sStar ∈ src.filter (fun s => tgt.any (fun t => t.name == s.name)) :=
      List.mem_filter.mpr ⟨hmem, hint⟩
    have hemp : ((src.filter (fun s => tgt.any (fun t => t.name == s.name))).map
        (fun s => (s.name, s))).isEmpty = false := by
      cases hF : src.filter (fun s => tgt.any (fun t => t.name == s.name)) with
      | nil =>
        rw [hF] at hmemF
        exact absurd hmemF (List.not_mem_nil _)
      | cons a l => rfl
    rw [if_neg (by rw [hemp]; exact Bool.false_ne_true)]
    have hmap2 : (((src.filter (fun s => tgt.any (fun t => t.name == s.name))).map
        (fun s => (s.name, s))).map (fun p => p.2)) =
        src.filter (fun s => tgt.any (fun t => t.name == s.name)) := by
      rw [List.map_map]
      have hcomp : ((fun p : String × ZFSSnapshot => p.2) ∘ fun s : ZFSSnapshot => (s.name, s)) = id := rfl
      rw [hcomp, List.map_id]
    rw [hmap2]
    have hpick : pickLatestCommon
        (src.filter (fun s => tgt.any (fun t => t.name == s.name))) = some sStar := by
      unfold pickLatestCommon
      rw [pickFold_max sStar tStar
        (src.filter (fun s => tgt.any (fun t => t.name == s.name))) none ⊥ hmemF hcre
        (by
          intro s hs hss t ht
          rcases List.mem_filter.mp hs with ⟨hs1, hs2⟩
          exact hbound s hs1 hs2 hss t ht)
        (WithBot.bot_lt_coe tStar)]
    rw [hpick]
    rfl

/-- Witness for C5 on the spec's example: source snapshots a, b, c at
times 1 < 2 < 3, target has a and c; the resolver returns c's source-side
full name. -/
theorem latest_common_snapshot_spec_witness :
    get_latest_common_snapshot true exSrcSnaps exTgtSnaps = some exSnapC.full_name :=
  latest_common_snapshot_spec.2.2 exSrcSnaps exTgtSnaps exSnapC 3
    (by decide) (by decide) (by decide) rfl (by decide)
    (by
      intro s hs hin hne t ht
      simp only [exSrcSnaps, List.mem_cons, List.not_mem_nil, or_false] at hs
      rcases hs with rfl | rfl | rfl
      · injection ht with he
        rw [← he]
        decide
      · injection ht with he
        rw [← he]
        decide
      · exact absurd rfl hne)

/-- Claim C8: with a valid dataset and target pool, a reachable target,
and a non-empty source snapshot list, if the common snapshot returned by
the resolver equals the newest source snapshot's full name, then
`perform_backup` returns the no-op success message; in particular the
result is not a send, so no send or receive process is spawned. -/
theorem perform_backup_noop_when_common_is_latest (dataset targetPool : String)
    (authOk : Bool) (src tgt : List ZFSSnapshot)
    (hd : is_safe_zfs_token dataset = true) (hp : is_safe_zfs_token targetPool = true)
    (hne : src ≠ [])
    (hcommon : get_latest_common_snapshot true src tgt =
      some ((sortSnapshotsDesc src).headD defaultSnapshot).full_name) :
    perform_backup dataset targetPool true true authOk src tgt =
      BackupOutcome.noop ("Latest snapshot " ++
        ((sortSnapshotsDesc src).headD defaultSnapshot).full_name ++
        " already exists in target pool") := by
  have hemp : src.isEmpty = false := by
    cases src with
    | nil => exact absurd rfl hne
    | cons a l => rfl
  unfold perform_backup
  rw [if_neg (by decide)]
  rw [if_neg (by rw [hd]; decide)]
  rw [if_neg (by rw [hp]; decide)]
  rw [if_neg (by decide)]
  rw [if_neg (by rw [hemp]; decide)]
  rw [hcommon]
  simp

/-- Witness for C8: one source snapshot whose bare name also exists in
the target pool; the backup is a successful no-op. -/
theorem perform_backup_noop_when_common_is_latest_witness :
    perform_backup ("tank") ("backup") true true true
      [⟨"tank", "s1", some 5, "0B", "0B"⟩] [⟨"backup/tank", "s1", some 4, "0B", "0B"⟩] =
      BackupOutcome.noop ("Latest snapshot " ++
        ((sortSnapshotsDesc [⟨"tank", "s1", some 5, "0B", "0B"⟩]).headD defaultSnapshot).full_name ++
        " already exists in target pool") :=
  perform_backup_noop_when_common_is_latest ("tank") ("backup") true
    [⟨"tank", "s1", some 5, "0B", "0B"⟩] [⟨"backup/tank", "s1", some 4, "0B", "0B"⟩]
    (by decide) (by decide) (by decide) (by decide)
